import Mathlib

/-!
Verification development for the SQL Report Validator.

The validation logic of `streamlit_app.py` is embedded shallowly:

* a pandas `DataFrame` becomes `DataFrame` below: an ordered list of column
  names together with an ordered list of rows, each row a list of cells;
* a cell is missing (`Cell.null`, modelling NaN/None), numeric (`Cell.num`,
  with exact rationals standing for the floating-point values), or text
  (`Cell.str`);
* `Series.duplicated().sum()` becomes `duplicatedSum` (pandas marks every
  occurrence after the first, and NaN compares equal to NaN for this purpose,
  which the derived decidable equality on `Cell` reproduces);
* `Series.nunique()` becomes `nunique` (distinct non-missing values);
* Python's `round(x, 2)` becomes `pyRound2` (round half to even, per the
  Python documentation, computed on the exact rational);
* `pd.to_numeric(col, errors = coerce)` becomes `toNumeric`, with a parser
  `parseNum` for plain decimal literals (optional sign, digits, optional
  fractional part, surrounding whitespace stripped); cells that do not parse
  become missing, and pandas `sum()` skips missing values (`optSum`);
* the nested explanation dictionary becomes an association list `messages`,
  with `none` from `explain` modelling the `KeyError` (a `LookupError`)
  raised on a missing key;
* the Ask-button handler becomes `askFlow`, whose `AskOutcome.call` outcome
  stands for the one network call to the completion service, and whose
  `AskOutcome.nameError` outcome stands for the `NameError` raised when the
  name `join_risk_status` was never assigned (the join-risk branch of the
  script only assigns it when the rounded ratio is not None).
-/

/-- A cell of the tabular dataset: missing (NaN), numeric, or text. -/
inductive Cell where
  | null : Cell
  | num : ℚ → Cell
  | str : String → Cell
deriving DecidableEq, Repr

def Cell.isNull : Cell → Bool
  | .null => true
  | _ => false

def Cell.isNum : Cell → Bool
  | .num _ => true
  | _ => false

/-- Is the cell a negative number?  Missing and text cells are not
(`NaN < 0` and string comparison against 0 are false in pandas). -/
def Cell.isNeg : Cell → Bool
  | .num q => decide (q < 0)
  | _ => false

/-- The dataset: ordered column names and ordered rows. -/
structure DataFrame where
  cols : List String
  rows : List (List Cell)
deriving DecidableEq, Repr

/-- Number of rows, `df.shape[0]`. -/
def DataFrame.nRows (df : DataFrame) : Nat := df.rows.length

/-- Number of columns, `df.shape[1]`. -/
def DataFrame.nCols (df : DataFrame) : Nat := df.cols.length

/-- The cells of column `c` in row order, `df[c]`.  A name not among the
columns yields the empty column (the UI only offers names from
`df.columns`, so this case never arises in the script). -/
def DataFrame.col (df : DataFrame) (c : String) : List Cell :=
  match df.cols.indexOf? c with
  | some i => df.rows.map (fun r => r.getD i Cell.null)
  | none => []

/-- Accumulator for `duplicatedSum`: elements already seen are in `seen`;
an element equal to a seen one counts as a duplicate. -/
def countDups {α : Type} [DecidableEq α] (seen : List α) : List α → Nat
  | [] => 0
  | x :: xs => (if x ∈ seen then 1 else 0) + countDups (x :: seen) xs

/-- `Series.duplicated().sum()` / `DataFrame.duplicated().sum()`: the number
of entries equal to some earlier entry. -/
def duplicatedSum {α : Type} [DecidableEq α] (l : List α) : Nat :=
  countDups [] l

/-- `duplicate_count = df.duplicated().sum()` (entire rows compared). -/
def duplicate_count (df : DataFrame) : Nat := duplicatedSum df.rows

/-- `dup_status = "PASS" if duplicate_count == 0 else "WARNING"`. -/
def dup_status (df : DataFrame) : String :=
  if duplicate_count df = 0 then "PASS" else "WARNING"

/-- `pk_duplicate_count = df[primary_key].duplicated().sum()`. -/
def pk_duplicate_count (df : DataFrame) (primary_key : String) : Nat :=
  duplicatedSum (df.col primary_key)

/-- `pk_status = "PASS" if pk_duplicate_count == 0 else "WARNING"`. -/
def pk_status (df : DataFrame) (primary_key : String) : String :=
  if pk_duplicate_count df primary_key = 0 then "PASS" else "WARNING"

/-- `unique_keys = df[primary_key].nunique()`: the number of distinct
non-missing values (pandas `nunique` drops NaN). -/
def nunique (df : DataFrame) (primary_key : String) : Nat :=
  ((df.col primary_key).filter (fun c => ! c.isNull)).dedup.length

/-- Python's `round(x, 2)`: round to two decimal places, ties to the even
hundredth, computed on the exact rational value. -/
def pyRound2 (q : ℚ) : ℚ :=
  let s : ℚ := q * 100
  let f : ℤ := ⌊s⌋
  let n : ℤ :=
    if s - f < 1/2 then f
    else if s - f > 1/2 then f + 1
    else if f % 2 = 0 then f else f + 1
  (n : ℚ) / 100

/-- `duplication_ratio = round(total_rows / unique_keys, 2) if unique_keys > 0
else None`. -/
def duplicationRatioOpt (df : DataFrame) (primary_key : String) : Option ℚ :=
  if 0 < nunique df primary_key then
    some (pyRound2 ((df.nRows : ℚ) / (nunique df primary_key : ℚ)))
  else none

/-- The join-risk classification the script assigns when the ratio is not
None; `none` models the script leaving `join_risk_status` unassigned. -/
def join_risk_status (df : DataFrame) (primary_key : String) : Option String :=
  match duplicationRatioOpt df primary_key with
  | none => none
  | some r =>
      some (if r ≤ 105/100 then "LOW" else if r ≤ 2 then "MEDIUM" else "HIGH")

/-- `null_columns = df.columns[df.isnull().any()].tolist()`: names of the
columns containing at least one missing value, in column order. -/
def null_columns (df : DataFrame) : List String :=
  df.cols.filter (fun c => (df.col c).any Cell.isNull)

/-- Does the column have pandas numeric dtype?  A CSV-read column is numeric
exactly when every cell is a number or missing (a column holding any text
cell has object dtype; an all-missing column is float64, hence numeric). -/
def isNumericColumn (l : List Cell) : Bool :=
  l.all (fun c => c.isNull || c.isNum)

/-- `negative_columns = [c for c in df.select_dtypes(include="number").columns
if (df[c] < 0).any()]`. -/
def negative_columns (df : DataFrame) : List String :=
  (df.cols.filter (fun c => isNumericColumn (df.col c))).filter
    (fun c => (df.col c).any Cell.isNeg)

/-- Numeric value of a run of decimal digits. -/
def digitsToNat (cs : List Char) : Nat :=
  cs.foldl (fun n c => n * 10 + (c.toNat - '0'.toNat)) 0

/-- Parser behind `pd.to_numeric(.., errors = coerce)` on a text cell,
modelled for plain decimal literals: surrounding whitespace stripped,
optional sign, digits, optional fractional part.  Anything else (including
the exotic forms pandas also accepts, not exercised here) is non-parsable
and coerces to missing. -/
def parseNum (s : String) : Option ℚ :=
  let cs := s.trim.toList
  let sgn : ℚ × List Char :=
    match cs with
    | '-' :: r => (-1, r)
    | '+' :: r => (1, r)
    | _ => (1, cs)
  let ip := sgn.2.takeWhile Char.isDigit
  let rest := sgn.2.dropWhile Char.isDigit
  match rest with
  | [] => if ip.isEmpty then none else some (sgn.1 * (digitsToNat ip : ℚ))
  | '.' :: fp =>
      if fp.all Char.isDigit && !(ip.isEmpty && fp.isEmpty) then
        some (sgn.1 * ((digitsToNat ip : ℚ) + (digitsToNat fp : ℚ) / (10 : ℚ) ^ fp.length))
      else none
  | _ => none

/-- `pd.to_numeric(cell, errors = coerce)`: numbers pass through, missing
stays missing, text parses or becomes missing. -/
def toNumeric : Cell → Option ℚ
  | .null => none
  | .num q => some q
  | .str s => parseNum s

/-- A column coerced to numeric, `pd.to_numeric(df[c], errors = coerce)`. -/
def toNumericCol (df : DataFrame) (c : String) : List (Option ℚ) :=
  (df.col c).map toNumeric

/-- pandas `Series.sum()`: missing entries are skipped. -/
def optSum (l : List (Option ℚ)) : ℚ := (l.filterMap id).sum

/-- Elementwise product of two coerced series; a missing factor gives a
missing product (`NaN * x = NaN`). -/
def optMul : Option ℚ → Option ℚ → Option ℚ
  | some a, some b => some (a * b)
  | _, _ => none

/-- `diff = revenue.sum() - (qty * price).sum()`. -/
def aggDiff (df : DataFrame) (quantity_col price_col revenue_col : String) : ℚ :=
  optSum (toNumericCol df revenue_col) -
    optSum (List.zipWith optMul (toNumericCol df quantity_col) (toNumericCol df price_col))

/-- `agg_status = "PASS" if abs(diff) <= 0.01 else "FAIL"`. -/
def agg_status (df : DataFrame) (quantity_col price_col revenue_col : String) : String :=
  if |aggDiff df quantity_col price_col revenue_col| ≤ 1/100 then "PASS" else "FAIL"

/-- The nested explanation dictionary, as an association list mirroring the
literal in `explain`. -/
def messages : List (String × List (String × (String × String × String))) :=
  [ ("duplicates",
      [ ("PASS",
          ("No duplicate rows detected.",
           "Duplicate rows usually occur due to incorrect joins.",
           "No action needed.")),
        ("WARNING",
          ("Duplicate rows found in the report.",
           "Often caused by joins that multiply rows.",
           "Review joins and aggregation grain.")) ]),
    ("pk_duplicates",
      [ ("PASS",
          ("Primary key is unique.",
           "Uniqueness indicates correct data grain.",
           "No action needed.")),
        ("WARNING",
          ("Primary key contains duplicate values.",
           "Likely one-to-many joins without pre-aggregation.",
           "Check join keys and table grain.")) ]),
    ("aggregation",
      [ ("PASS",
          ("Reported revenue matches calculated revenue.",
           "Aggregation logic appears correct.",
           "No action needed.")),
        ("FAIL",
          ("Reported revenue does not match calculated revenue.",
           "Usually caused by join duplication or wrong formulas.",
           "Validate joins and aggregation logic.")) ]),
    ("join_risk",
      [ ("LOW",
          ("Low risk of join inflation.",
           "Row count aligns with primary key uniqueness.",
           "No action needed.")),
        ("MEDIUM",
          ("Moderate risk of join inflation.",
           "Some duplication exists at the key level.",
           "Review joins to many-side tables.")),
        ("HIGH",
          ("High risk of join inflation.",
           "Primary keys repeat many times, inflating totals.",
           "Pre-aggregate before joins or fix join conditions.")) ]) ]

/-- `explain(check, severity) = messages[check][severity]`; `none` models the
`KeyError` (a `LookupError`) Python raises on a missing key. -/
def explain (check severity : String) : Option (String × String × String) :=
  match messages.lookup check with
  | some m => m.lookup severity
  | none => none

/-- The (check, severity) pairs enumerated in the spec's catalog table. -/
def explainPairs : List (String × String) :=
  [ ("duplicates", "PASS"), ("duplicates", "WARNING"),
    ("pk_duplicates", "PASS"), ("pk_duplicates", "WARNING"),
    ("aggregation", "PASS"), ("aggregation", "FAIL"),
    ("join_risk", "LOW"), ("join_risk", "MEDIUM"), ("join_risk", "HIGH") ]

/-- `', '.join(l) if l else 'None'`: the rendering of a list-valued finding
in the context template. -/
def joinOrNone (l : List String) : String :=
  if l.isEmpty then "None" else String.intercalate ", " l

/-- The f-string of `build_gpt_context`, chunk by chunk. -/
def build_gpt_context (df : DataFrame) (duplicate_cnt pk_duplicate_cnt : Nat)
    (null_cols negative_cols : List String) (agg_st join_risk_st : String) : String :=
  "\nThis document is a SQL report exported as CSV.\n\nDataset overview:\n- Rows: "
    ++ toString df.nRows
    ++ "\n- Columns: "
    ++ toString df.nCols
    ++ "\n\nValidation findings:\n- Duplicate rows: "
    ++ toString duplicate_cnt
    ++ "\n- Primary key duplicates: "
    ++ toString pk_duplicate_cnt
    ++ "\n- Columns with nulls: "
    ++ joinOrNone null_cols
    ++ "\n- Columns with negative values: "
    ++ joinOrNone negative_cols
    ++ "\n- Aggregation sanity status: "
    ++ agg_st
    ++ "\n- Join inflation risk: "
    ++ join_risk_st
    ++ "\n\nAnswer strictly using this information.\nIf unsure, say so clearly.\n"

/-- Python's `str.strip()` (no argument): remove leading and trailing
whitespace. -/
def pyStrip (s : String) : String :=
  ⟨((s.toList.dropWhile Char.isWhitespace).reverse.dropWhile Char.isWhitespace).reverse⟩

/-- Python truthiness of the resolved credential: `not api_key` is true when
the credential is absent (None) or the empty string. -/
def credentialPresent : Option String → Bool
  | none => false
  | some s => s != ""

/-- Outcome of one press of the Ask button.  `call context question` stands
for the single network call to the completion service; the other outcomes
issue no network call. -/
inductive AskOutcome where
  | configError : String → AskOutcome
  | inputError : String → AskOutcome
  | nameError : AskOutcome
  | call : String → String → AskOutcome
deriving DecidableEq, Repr

/-- The configuration-error message of the handler. -/
def apiKeyMissingMsg : String :=
  "OpenAI API key not found.\n\nLocal: add it to .streamlit/secrets.toml\nCloud: add it in App → Settings → Secrets"

/-- The user-input-error message of the handler. -/
def emptyQuestionMsg : String := "Please enter a question."

/-- The Ask-button handler: check the credential, then the stripped question,
then build the context (reading `join_risk_status`, a `NameError` if the
script never assigned it) and issue the one service call. -/
def askFlow (api_key : Option String) (user_question : String) (df : DataFrame)
    (primary_key quantity_col price_col revenue_col : String) : AskOutcome :=
  if ! credentialPresent api_key then .configError apiKeyMissingMsg
  else if pyStrip user_question = "" then .inputError emptyQuestionMsg
  else
    match join_risk_status df primary_key with
    | none => .nameError
    | some jr =>
        .call
          (build_gpt_context df (duplicate_count df)
            (pk_duplicate_count df primary_key) (null_columns df)
            (negative_columns df)
            (agg_status df quantity_col price_col revenue_col) jr)
          user_question

/-- The predicate counted by `countDups`: entry `i` equals a `seen` value or
an earlier entry. -/
def seenOrDup {α : Type} [DecidableEq α] (seen l : List α) (i : Nat) : Bool :=
  decide ((∃ v ∈ seen, l[i]? = some v) ∨ ∃ j, j < i ∧ l[j]? = l[i]?)

theorem seenOrDup_cons_succ {α : Type} [DecidableEq α] (seen : List α) (x : α)
    (xs : List α) (i : Nat) :
    seenOrDup seen (x :: xs) (i + 1) = seenOrDup (x :: seen) xs i := by
  apply decide_eq_decide.2
  rw [List.getElem?_cons_succ]
  constructor
  · rintro (⟨v, hv, he⟩ | ⟨j, hj, he⟩)
    · exact Or.inl ⟨v, List.mem_cons_of_mem x hv, he⟩
    · cases j with
      | zero =>
          rw [List.getElem?_cons_zero] at he
          exact Or.inl ⟨x, List.mem_cons_self x seen, he.symm⟩
      | succ j' =>
          rw [List.getElem?_cons_succ] at he
          exact Or.inr ⟨j', by omega, he⟩
  · rintro (⟨v, hv, he⟩ | ⟨j, hj, he⟩)
    · rcases List.mem_cons.1 hv with h | h
      · subst h
        exact Or.inr ⟨0, by omega, by rw [List.getElem?_cons_zero, he]⟩
      · exact Or.inl ⟨v, h, he⟩
    · refine Or.inr ⟨j + 1, by omega, ?_⟩
      rw [List.getElem?_cons_succ]
      exact he

theorem seenOrDup_zero {α : Type} [DecidableEq α] (seen : List α) (x : α)
    (xs : List α) :
    seenOrDup seen (x :: xs) 0 = decide (x ∈ seen) := by
  apply decide_eq_decide.2
  constructor
  · rintro (⟨v, hv, he⟩ | ⟨j, hj, _⟩)
    · rw [List.getElem?_cons_zero] at he
      cases Option.some.inj he
      exact hv
    · omega
  · intro h
    exact Or.inl ⟨x, h, List.getElem?_cons_zero⟩

theorem countDups_eq_countP {α : Type} [DecidableEq α] :
    ∀ (l seen : List α),
      countDups seen l = (List.range l.length).countP (seenOrDup seen l)
  | [], _ => rfl
  | x :: xs, seen => by
      have ih := countDups_eq_countP xs (x :: seen)
      rw [countDups, ih, List.length_cons, List.range_succ_eq_map,
        List.countP_cons, List.countP_map]
      have hc : (List.range xs.length).countP (seenOrDup seen (x :: xs) ∘ Nat.succ) =
          (List.range xs.length).countP (seenOrDup (x :: seen) xs) := by
        refine List.countP_congr fun i _ => ?_
        have : (seenOrDup seen (x :: xs) ∘ Nat.succ) i = seenOrDup (x :: seen) xs i := by
          show seenOrDup seen (x :: xs) (i + 1) = _
          exact seenOrDup_cons_succ seen x xs i
        rw [this]
      rw [hc, seenOrDup_zero]
      simp [Nat.add_comm]

/-- `duplicated().sum()` counts exactly the positions whose entry equals some
earlier entry. -/
theorem duplicatedSum_eq_countP {α : Type} [DecidableEq α] (l : List α) :
    duplicatedSum l =
      (List.range l.length).countP (fun i => decide (∃ j, j < i ∧ l[j]? = l[i]?)) := by
  rw [duplicatedSum, countDups_eq_countP]
  refine List.countP_congr fun i _ => ?_
  simp [seenOrDup]

theorem duplicatedSum_eq_zero_of_nodup {α : Type} [DecidableEq α] {l : List α}
    (h : l.Nodup) : duplicatedSum l = 0 := by
  rw [duplicatedSum_eq_countP]
  refine List.countP_eq_zero.2 fun i hi => ?_
  simp only [decide_eq_true_eq]
  rintro ⟨j, hj, he⟩
  exact List.nodup_iff_getElem?_ne_getElem?.1 h j i hj (List.mem_range.1 hi) he

theorem countDups_append_one {α : Type} [DecidableEq α] :
    ∀ (l : List α) (seen : List α) (a : α),
      countDups seen (l ++ [a]) =
        countDups seen l + (if a ∈ seen ∨ a ∈ l then 1 else 0)
  | [], seen, a => by simp [countDups]
  | x :: xs, seen, a => by
      have ih := countDups_append_one xs (x :: seen) a
      have hmem : (a ∈ x :: seen ∨ a ∈ xs) ↔ (a ∈ seen ∨ a ∈ x :: xs) := by
        simp only [List.mem_cons]
        tauto
      show (if x ∈ seen then 1 else 0) + countDups (x :: seen) (xs ++ [a]) =
        ((if x ∈ seen then 1 else 0) + countDups (x :: seen) xs) +
          (if a ∈ seen ∨ a ∈ x :: xs then 1 else 0)
      rw [ih, if_congr hmem rfl rfl]
      exact (Nat.add_assoc _ _ _).symm

/-- Appending one copy of an element already in a duplicate-free list yields
exactly one counted duplicate. -/
theorem duplicatedSum_append_self {α : Type} [DecidableEq α] {l : List α} {a : α}
    (h0 : duplicatedSum l = 0) (ha : a ∈ l) : duplicatedSum (l ++ [a]) = 1 := by
  rw [duplicatedSum, countDups_append_one, ← duplicatedSum, h0]
  simp [ha]

/-- Overwriting position `w` of a duplicate-free list with the value at an
earlier position `u` yields exactly one counted duplicate. -/
theorem duplicatedSum_set_of_nodup {α : Type} [DecidableEq α] {l : List α}
    (h : l.Nodup) {u w : Nat} {v : α} (huw : u < w) (hw : w < l.length)
    (hv : l[u]? = some v) : duplicatedSum (l.set w v) = 1 := by
  rw [duplicatedSum_eq_countP]
  have hlen : (l.set w v).length = l.length := List.length_set l w v
  have hkey : ∀ i ∈ List.range (l.set w v).length,
      (decide (∃ j, j < i ∧ (l.set w v)[j]? = (l.set w v)[i]?) = true) ↔
        ((i == w) = true) := by
    intro i hi
    have hi' : i < l.length := by rw [← hlen]; exact List.mem_range.1 hi
    simp only [decide_eq_true_eq, beq_iff_eq]
    constructor
    · rintro ⟨j, hj, he⟩
      by_contra hne
      have hrdi : (l.set w v)[i]? = l[i]? :=
        List.getElem?_set_ne (fun hh => hne hh.symm)
      by_cases hjw : j = w
      · subst hjw
        rw [List.getElem?_set_eq_of_lt v hw, hrdi] at he
        rw [← hv] at he
        exact List.nodup_iff_getElem?_ne_getElem?.1 h u i (by omega) hi' he
      · rw [List.getElem?_set_ne (fun hh => hjw hh.symm), hrdi] at he
        exact List.nodup_iff_getElem?_ne_getElem?.1 h j i hj hi' he
    · intro hiw
      subst hiw
      refine ⟨u, huw, ?_⟩
      rw [List.getElem?_set_ne (by omega), hv, List.getElem?_set_eq_of_lt v hw]
  rw [List.countP_congr hkey]
  exact List.count_eq_one_of_mem (List.nodup_range _)
    (List.mem_range.2 (by omega))

theorem nodup_of_dedup_length {α : Type} [DecidableEq α] {l : List α}
    (h : l.dedup.length = l.length) : l.Nodup := by
  have he := (List.dedup_sublist l).eq_of_length h
  rw [← he]
  exact List.nodup_dedup l

theorem pass_warning_iff (n : Nat) :
    ((if n = 0 then "PASS" else "WARNING") = "PASS" ↔ n = 0) ∧
    ((if n = 0 then "PASS" else "WARNING") = "WARNING" ↔ n ≠ 0) := by
  have h1 : ("PASS" : String) ≠ "WARNING" := by decide
  by_cases h : n = 0
  · rw [if_pos h]
    exact ⟨⟨fun _ => h, fun _ => rfl⟩, ⟨fun hh => absurd hh h1, fun hh => absurd h hh⟩⟩
  · rw [if_neg h]
    exact ⟨⟨fun hh => absurd hh.symm h1, fun hh => absurd hh h⟩, ⟨fun _ => h, fun _ => rfl⟩⟩

/-- C6: the row-duplicate check counts exactly the rows equal to some earlier
row (all columns compared, via row equality), reports PASS exactly when the
count is 0 and WARNING otherwise, and appending one exact copy of an existing
row to a duplicate-free dataset yields count 1 and WARNING. -/
theorem C6_row_duplicates (df : DataFrame) :
    duplicate_count df =
      (List.range df.rows.length).countP
        (fun i => decide (∃ j, j < i ∧ df.rows[j]? = df.rows[i]?)) ∧
    (dup_status df = "PASS" ↔ duplicate_count df = 0) ∧
    (dup_status df = "WARNING" ↔ duplicate_count df ≠ 0) ∧
    (duplicate_count df = 0 → ∀ r ∈ df.rows,
      duplicate_count ⟨df.cols, df.rows ++ [r]⟩ = 1 ∧
        dup_status ⟨df.cols, df.rows ++ [r]⟩ = "WARNING") := by
  refine ⟨duplicatedSum_eq_countP df.rows,
    (pass_warning_iff (duplicate_count df)).1,
    (pass_warning_iff (duplicate_count df)).2, ?_⟩
  intro h0 r hr
  have h1 : duplicate_count ⟨df.cols, df.rows ++ [r]⟩ = 1 :=
    duplicatedSum_append_self h0 hr
  refine ⟨h1, ?_⟩
  unfold dup_status
  rw [h1]
  simp

/-- C6 witness: a concrete duplicate-free dataset with one appended copy. -/
theorem C6_row_duplicates_witness :
    duplicate_count ⟨["a"], [[Cell.num 1], [Cell.num 2]] ++ [[Cell.num 1]]⟩ = 1 ∧
    dup_status ⟨["a"], [[Cell.num 1], [Cell.num 2]] ++ [[Cell.num 1]]⟩ = "WARNING" :=
  (C6_row_duplicates ⟨["a"], [[Cell.num 1], [Cell.num 2]]⟩).2.2.2
    (by decide) [Cell.num 1] (by decide)

/-- C7: the primary-key-duplicate check counts exactly the key-column entries
equal to some earlier entry, reports PASS exactly when the count is 0 and
WARNING otherwise; a key column with as many distinct values as entries gives
count 0 and PASS, and collapsing one entry of a duplicate-free key column
onto an earlier entry's value gives count 1 and WARNING. -/
theorem C7_pk_duplicates (df : DataFrame) (primary_key : String) :
    pk_duplicate_count df primary_key =
      (List.range (df.col primary_key).length).countP
        (fun i => decide (∃ j, j < i ∧
          (df.col primary_key)[j]? = (df.col primary_key)[i]?)) ∧
    (pk_status df primary_key = "PASS" ↔ pk_duplicate_count df primary_key = 0) ∧
    (pk_status df primary_key = "WARNING" ↔ pk_duplicate_count df primary_key ≠ 0) ∧
    ((df.col primary_key).dedup.length = (df.col primary_key).length →
      pk_duplicate_count df primary_key = 0 ∧ pk_status df primary_key = "PASS") ∧
    (∀ (df' : DataFrame) (u w : Nat) (v : Cell),
      (df.col primary_key).Nodup → u < w → w < (df.col primary_key).length →
      (df.col primary_key)[u]? = some v →
      df'.col primary_key = (df.col primary_key).set w v →
      pk_duplicate_count df' primary_key = 1 ∧
        pk_status df' primary_key = "WARNING") := by
  refine ⟨duplicatedSum_eq_countP _,
    (pass_warning_iff (pk_duplicate_count df primary_key)).1,
    (pass_warning_iff (pk_duplicate_count df primary_key)).2, ?_, ?_⟩
  · intro h
    have h0 : pk_duplicate_count df primary_key = 0 :=
      duplicatedSum_eq_zero_of_nodup (nodup_of_dedup_length h)
    refine ⟨h0, ?_⟩
    unfold pk_status
    rw [if_pos h0]
  · intro df' u w v hN huw hw hv hcol
    have h1 : pk_duplicate_count df' primary_key = 1 := by
      unfold pk_duplicate_count
      rw [hcol]
      exact duplicatedSum_set_of_nodup hN huw hw hv
    refine ⟨h1, ?_⟩
    unfold pk_status
    rw [h1]
    simp

/-- C7 witness: a two-row dataset with distinct keys, and the same dataset
with the second key collapsed onto the first. -/
theorem C7_pk_duplicates_witness :
    pk_duplicate_count ⟨["k"], [[Cell.num 1], [Cell.num 2]]⟩ "k" = 0 ∧
    pk_status ⟨["k"], [[Cell.num 1], [Cell.num 2]]⟩ "k" = "PASS" ∧
    pk_duplicate_count ⟨["k"], [[Cell.num 1], [Cell.num 1]]⟩ "k" = 1 ∧
    pk_status ⟨["k"], [[Cell.num 1], [Cell.num 1]]⟩ "k" = "WARNING" := by
  have h1 := (C7_pk_duplicates ⟨["k"], [[Cell.num 1], [Cell.num 2]]⟩ "k").2.2.2.1
    (by decide)
  have h2 := (C7_pk_duplicates ⟨["k"], [[Cell.num 1], [Cell.num 2]]⟩ "k").2.2.2.2
    ⟨["k"], [[Cell.num 1], [Cell.num 1]]⟩ 0 1 (Cell.num 1)
    (by decide) (by decide) (by decide) (by decide) (by decide)
  exact ⟨h1.1, h1.2, h2.1, h2.2⟩

/-- C1: the join-inflation ratio is total rows over distinct key values,
rounded to two decimals; it is None (and no division happens) when the
distinct count is 0; the assigned severity is LOW for ratio at most 1.05,
MEDIUM for ratio in (1.05, 2], HIGH for ratio above 2. -/
theorem C1_join_inflation (df : DataFrame) (primary_key : String) :
    (nunique df primary_key = 0 →
      duplicationRatioOpt df primary_key = none ∧
        join_risk_status df primary_key = none) ∧
    (0 < nunique df primary_key →
      duplicationRatioOpt df primary_key =
        some (pyRound2 ((df.nRows : ℚ) / (nunique df primary_key : ℚ)))) ∧
    (∀ r : ℚ, duplicationRatioOpt df primary_key = some r →
      (join_risk_status df primary_key = some "LOW" ↔ r ≤ 105/100) ∧
      (join_risk_status df primary_key = some "MEDIUM" ↔ 105/100 < r ∧ r ≤ 2) ∧
      (join_risk_status df primary_key = some "HIGH" ↔ 2 < r)) := by
  refine ⟨?_, ?_, ?_⟩
  · intro h
    have hd : duplicationRatioOpt df primary_key = none := by
      unfold duplicationRatioOpt
      rw [if_neg]
      omega
    refine ⟨hd, ?_⟩
    unfold join_risk_status
    rw [hd]
  · intro h
    unfold duplicationRatioOpt
    rw [if_pos h]
  · intro r hr
    have hj : join_risk_status df primary_key =
        some (if r ≤ 105/100 then "LOW" else if r ≤ 2 then "MEDIUM" else "HIGH") := by
      unfold join_risk_status
      rw [hr]
    have hLM : ("LOW" : String) ≠ "MEDIUM" := by decide
    have hLH : ("LOW" : String) ≠ "HIGH" := by decide
    have hMH : ("MEDIUM" : String) ≠ "HIGH" := by decide
    by_cases h1 : r ≤ 105/100
    · rw [hj, if_pos h1]
      refine ⟨⟨fun _ => h1, fun _ => rfl⟩, ?_, ?_⟩
      · exact ⟨fun he => absurd (Option.some.inj he) hLM,
          fun hm => absurd h1 (not_le.2 hm.1)⟩
      · exact ⟨fun he => absurd (Option.some.inj he) hLH,
          fun hh => absurd h1 (not_le.2 (by linarith))⟩
    · by_cases h2 : r ≤ 2
      · rw [hj, if_neg h1, if_pos h2]
        refine ⟨?_, ⟨fun _ => ⟨not_le.1 h1, h2⟩, fun _ => rfl⟩, ?_⟩
        · exact ⟨fun he => absurd (Option.some.inj he) hLM.symm,
            fun hh => absurd hh h1⟩
        · exact ⟨fun he => absurd (Option.some.inj he) hMH,
            fun hh => absurd h2 (not_le.2 hh)⟩
      · rw [hj, if_neg h1, if_neg h2]
        refine ⟨?_, ?_, ⟨fun _ => not_le.1 h2, fun _ => rfl⟩⟩
        · exact ⟨fun he => absurd (Option.some.inj he) hLH.symm,
            fun hh => absurd (by linarith : r ≤ 2) h2⟩
        · exact ⟨fun he => absurd (Option.some.inj he) hMH.symm,
            fun hm => absurd hm.2 h2⟩

/-- C1 witness: an all-missing key column gives ratio None; a two-row
dataset with one distinct key gives the rounded ratio 2 / 1. -/
theorem C1_join_inflation_witness :
    duplicationRatioOpt ⟨["k"], [[Cell.null]]⟩ "k" = none ∧
    duplicationRatioOpt ⟨["k"], [[Cell.num 1], [Cell.num 1]]⟩ "k" =
      some (pyRound2 (((2 : Nat) : ℚ) / ((1 : Nat) : ℚ))) := by
  refine ⟨((C1_join_inflation ⟨["k"], [[Cell.null]]⟩ "k").1 (by decide)).1, ?_⟩
  exact (C1_join_inflation ⟨["k"], [[Cell.num 1], [Cell.num 1]]⟩ "k").2.1 (by decide)

/-- C5: a non-empty dataset whose key column is entirely missing has distinct
count 0, so the ratio is None and `join_risk_status` is never assigned; a
question submission with a credential and a non-blank question then reaches
the unbound-name failure instead of producing a context string. -/
theorem C5_unassigned_join_risk :
    (⟨["k"], [[Cell.null]]⟩ : DataFrame).nRows = 1 ∧
    nunique ⟨["k"], [[Cell.null]]⟩ "k" = 0 ∧
    duplicationRatioOpt ⟨["k"], [[Cell.null]]⟩ "k" = none ∧
    join_risk_status ⟨["k"], [[Cell.null]]⟩ "k" = none ∧
    askFlow (some "sk-test") "What is the join risk?" ⟨["k"], [[Cell.null]]⟩
      "k" "k" "k" "k" = AskOutcome.nameError := by
  refine ⟨rfl, by decide, by decide, by decide, by decide⟩

/-- C4: a missing (or empty) credential short-circuits to the
configuration-error message, a present credential with a blank question
short-circuits to the distinct user-input-error message, and the service
call outcome only occurs with a credential and a non-blank question. -/
theorem C4_ask_guard (api_key : Option String) (user_question : String)
    (df : DataFrame) (primary_key quantity_col price_col revenue_col : String) :
    (credentialPresent api_key = false →
      askFlow api_key user_question df primary_key quantity_col price_col revenue_col =
        AskOutcome.configError apiKeyMissingMsg) ∧
    (credentialPresent api_key = true → pyStrip user_question = "" →
      askFlow api_key user_question df primary_key quantity_col price_col revenue_col =
        AskOutcome.inputError emptyQuestionMsg) ∧
    (∀ context question,
      askFlow api_key user_question df primary_key quantity_col price_col revenue_col =
        AskOutcome.call context question →
      credentialPresent api_key = true ∧ pyStrip user_question ≠ "") ∧
    apiKeyMissingMsg ≠ emptyQuestionMsg := by
  refine ⟨?_, ?_, ?_, by decide⟩
  · intro h
    unfold askFlow
    rw [h]
    simp
  · intro hc hq
    unfold askFlow
    rw [hc, hq]
    simp
  · intro context question h
    by_cases hc : credentialPresent api_key = true
    · by_cases hq : pyStrip user_question = ""
      · exfalso
        unfold askFlow at h
        rw [hc, hq] at h
        simp at h
      · exact ⟨hc, hq⟩
    · exfalso
      have hc' : credentialPresent api_key = false := by
        cases hcase : credentialPresent api_key
        · rfl
        · exact absurd hcase hc
      unfold askFlow at h
      rw [hc'] at h
      simp at h

/-- C4 witness: no credential gives the configuration error, a blank
question gives the user-input error, and the two messages differ. -/
theorem C4_ask_guard_witness :
    askFlow none "What changed?" ⟨["k"], [[Cell.num 1]]⟩ "k" "k" "k" "k" =
      AskOutcome.configError apiKeyMissingMsg ∧
    askFlow (some "sk-1") "   " ⟨["k"], [[Cell.num 1]]⟩ "k" "k" "k" "k" =
      AskOutcome.inputError emptyQuestionMsg ∧
    apiKeyMissingMsg ≠ emptyQuestionMsg :=
  ⟨(C4_ask_guard none "What changed?" ⟨["k"], [[Cell.num 1]]⟩ "k" "k" "k" "k").1 rfl,
   (C4_ask_guard (some "sk-1") "   " ⟨["k"], [[Cell.num 1]]⟩ "k" "k" "k" "k").2.1
     rfl (by decide),
   (C4_ask_guard none "" ⟨["k"], [[Cell.num 1]]⟩ "k" "k" "k" "k").2.2.2⟩

theorem lookup2_ne {β : Type} (a k1 k2 : String) (v1 v2 : β)
    (h1 : a ≠ k1) (h2 : a ≠ k2) :
    List.lookup a [(k1, v1), (k2, v2)] = none := by
  simp [List.lookup, beq_eq_false_iff_ne.2 h1, beq_eq_false_iff_ne.2 h2]

theorem lookup3_ne {β : Type} (a k1 k2 k3 : String) (v1 v2 v3 : β)
    (h1 : a ≠ k1) (h2 : a ≠ k2) (h3 : a ≠ k3) :
    List.lookup a [(k1, v1), (k2, v2), (k3, v3)] = none := by
  simp [List.lookup, beq_eq_false_iff_ne.2 h1, beq_eq_false_iff_ne.2 h2,
    beq_eq_false_iff_ne.2 h3]

theorem lookup4_ne {β : Type} (a k1 k2 k3 k4 : String) (v1 v2 v3 v4 : β)
    (h1 : a ≠ k1) (h2 : a ≠ k2) (h3 : a ≠ k3) (h4 : a ≠ k4) :
    List.lookup a [(k1, v1), (k2, v2), (k3, v3), (k4, v4)] = none := by
  simp [List.lookup, beq_eq_false_iff_ne.2 h1, beq_eq_false_iff_ne.2 h2,
    beq_eq_false_iff_ne.2 h3, beq_eq_false_iff_ne.2 h4]

/-- C3: every enumerated (check, severity) pair has a three-part explanation
with all components non-empty, and every other pair fails the lookup (the
modelled KeyError) instead of getting a default. -/
theorem C3_explain_catalog :
    (∀ p ∈ explainPairs, ∃ a b c, explain p.1 p.2 = some (a, b, c) ∧
      a ≠ "" ∧ b ≠ "" ∧ c ≠ "") ∧
    (∀ check severity, (check, severity) ∉ explainPairs →
      explain check severity = none) := by
  constructor
  · intro p hp
    fin_cases hp <;> exact ⟨_, _, _, rfl, by decide, by decide, by decide⟩
  · intro check severity h
    by_cases h1 : check = "duplicates"
    · subst h1
      by_cases hs1 : severity = "PASS"
      · subst hs1; exact absurd (by decide) h
      · by_cases hs2 : severity = "WARNING"
        · subst hs2; exact absurd (by decide) h
        · exact lookup2_ne severity "PASS" "WARNING" _ _ hs1 hs2
    · by_cases h2 : check = "pk_duplicates"
      · subst h2
        by_cases hs1 : severity = "PASS"
        · subst hs1; exact absurd (by decide) h
        · by_cases hs2 : severity = "WARNING"
          · subst hs2; exact absurd (by decide) h
          · exact lookup2_ne severity "PASS" "WARNING" _ _ hs1 hs2
      · by_cases h3 : check = "aggregation"
        · subst h3
          by_cases hs1 : severity = "PASS"
          · subst hs1; exact absurd (by decide) h
          · by_cases hs2 : severity = "FAIL"
            · subst hs2; exact absurd (by decide) h
            · exact lookup2_ne severity "PASS" "FAIL" _ _ hs1 hs2
        · by_cases h4 : check = "join_risk"
          · subst h4
            by_cases hs1 : severity = "LOW"
            · subst hs1; exact absurd (by decide) h
            · by_cases hs2 : severity = "MEDIUM"
              · subst hs2; exact absurd (by decide) h
              · by_cases hs3 : severity = "HIGH"
                · subst hs3; exact absurd (by decide) h
                · exact lookup3_ne severity "LOW" "MEDIUM" "HIGH" _ _ _ hs1 hs2 hs3
          · have hm : messages.lookup check = none :=
              lookup4_ne check "duplicates" "pk_duplicates" "aggregation" "join_risk"
                _ _ _ _ h1 h2 h3 h4
            unfold explain
            rw [hm]

/-- C3 witness: one enumerated pair succeeds with non-empty parts, one
unlisted pair fails. -/
theorem C3_explain_catalog_witness :
    (∃ a b c, explain "join_risk" "HIGH" = some (a, b, c) ∧
      a ≠ "" ∧ b ≠ "" ∧ c ≠ "") ∧
    explain "join_risk" "PASS" = none :=
  ⟨C3_explain_catalog.1 ("join_risk", "HIGH") (by decide),
   C3_explain_catalog.2 "join_risk" "PASS" (by decide)⟩

theorem cell_isNull_iff (c : Cell) : c.isNull = true ↔ c = Cell.null := by
  cases c <;> simp [Cell.isNull]

theorem cell_isNeg_iff (c : Cell) :
    c.isNeg = true ↔ ∃ q : ℚ, q < 0 ∧ c = Cell.num q := by
  cases c with
  | null => simp [Cell.isNeg]
  | str s => simp [Cell.isNeg]
  | num q =>
      simp only [Cell.isNeg, decide_eq_true_eq, Cell.num.injEq]
      constructor
      · intro h; exact ⟨q, h, rfl⟩
      · rintro ⟨q', hq', he⟩; rw [he]; exact hq'

/-- C8: the null-column scan lists exactly the columns containing a missing
value, in column order (a sublist of the column list); only-B-missing gives
["B"], an all-complete dataset gives []. -/
theorem C8_null_columns (df : DataFrame) :
    (∀ c, c ∈ null_columns df ↔ c ∈ df.cols ∧ Cell.null ∈ df.col c) ∧
    (null_columns df).Sublist df.cols ∧
    null_columns ⟨["A", "B"], [[Cell.num 1, Cell.null], [Cell.num 2, Cell.num 3]]⟩ =
      ["B"] ∧
    null_columns ⟨["A", "B"], [[Cell.num 1, Cell.num 2], [Cell.num 3, Cell.num 4]]⟩ =
      [] := by
  refine ⟨?_, List.filter_sublist df.cols, by decide, by decide⟩
  intro c
  rw [null_columns, List.mem_filter]
  have hany : ((df.col c).any Cell.isNull = true) ↔ Cell.null ∈ df.col c := by
    rw [List.any_eq_true]
    constructor
    · rintro ⟨x, hx, hnull⟩
      rw [(cell_isNull_iff x).1 hnull] at hx
      exact hx
    · intro hn
      exact ⟨Cell.null, hn, rfl⟩
  rw [hany]

/-- C9: the negative-value scan lists exactly the numeric-dtype columns
containing a negative value, in column order; text columns are never
included, even when a text cell spells a negative number. -/
theorem C9_negative_columns (df : DataFrame) :
    (∀ c, c ∈ negative_columns df ↔
      c ∈ df.cols ∧ isNumericColumn (df.col c) = true ∧
        ∃ q : ℚ, q < 0 ∧ Cell.num q ∈ df.col c) ∧
    (negative_columns df).Sublist df.cols ∧
    negative_columns ⟨["t", "n"], [[Cell.str "-5", Cell.num (-5)]]⟩ = ["n"] ∧
    isNumericColumn
      ((⟨["t", "n"], [[Cell.str "-5", Cell.num (-5)]]⟩ : DataFrame).col "t") =
      false := by
  refine ⟨?_, (List.filter_sublist _).trans (List.filter_sublist _),
    by decide, by decide⟩
  intro c
  rw [negative_columns, List.mem_filter, List.mem_filter]
  have hany : ((df.col c).any Cell.isNeg = true) ↔
      ∃ q : ℚ, q < 0 ∧ Cell.num q ∈ df.col c := by
    rw [List.any_eq_true]
    constructor
    · rintro ⟨x, hx, hneg⟩
      rcases (cell_isNeg_iff x).1 hneg with ⟨q, hq, he⟩
      exact ⟨q, hq, he ▸ hx⟩
    · rintro ⟨q, hq, hmem⟩
      exact ⟨Cell.num q, hmem, (cell_isNeg_iff _).2 ⟨q, hq, rfl⟩⟩
  rw [hany]
  tauto

/-- C10: when the null-column list (resp. negative-column list) is empty,
the context string carries its full labelled line with the literal token
"None" in place of the list: the line is present, not omitted, and the
placeholder is never the empty string. -/
theorem C10_context_placeholder (df : DataFrame)
    (duplicate_cnt pk_duplicate_cnt : Nat) (other_cols : List String)
    (agg_st join_risk_st : String) :
    (∃ pre post,
      build_gpt_context df duplicate_cnt pk_duplicate_cnt [] other_cols
          agg_st join_risk_st =
        pre ++ "\n- Columns with nulls: " ++ "None" ++ post) ∧
    (∃ pre post,
      build_gpt_context df duplicate_cnt pk_duplicate_cnt other_cols []
          agg_st join_risk_st =
        pre ++ "\n- Columns with negative values: " ++ "None" ++ post) := by
  constructor
  · refine ⟨"\nThis document is a SQL report exported as CSV.\n\nDataset overview:\n- Rows: "
      ++ toString df.nRows ++ "\n- Columns: " ++ toString df.nCols
      ++ "\n\nValidation findings:\n- Duplicate rows: " ++ toString duplicate_cnt
      ++ "\n- Primary key duplicates: " ++ toString pk_duplicate_cnt,
      "\n- Columns with negative values: " ++ joinOrNone other_cols
      ++ "\n- Aggregation sanity status: " ++ agg_st
      ++ "\n- Join inflation risk: " ++ join_risk_st
      ++ "\n\nAnswer strictly using this information.\nIf unsure, say so clearly.\n", ?_⟩
    have hlit : ∀ s : String,
        "\n- Columns with nulls: None" ++ ("\n- Columns with negative values: " ++ s) =
          "\n- Columns with nulls: None\n- Columns with negative values: " ++ s := by
      intro s
      rw [← String.append_assoc]
      congr 1
    simp [build_gpt_context, joinOrNone, String.append_assoc, hlit]
  · refine ⟨"\nThis document is a SQL report exported as CSV.\n\nDataset overview:\n- Rows: "
      ++ toString df.nRows ++ "\n- Columns: " ++ toString df.nCols
      ++ "\n\nValidation findings:\n- Duplicate rows: " ++ toString duplicate_cnt
      ++ "\n- Primary key duplicates: " ++ toString pk_duplicate_cnt
      ++ "\n- Columns with nulls: " ++ joinOrNone other_cols,
      "\n- Aggregation sanity status: " ++ agg_st
      ++ "\n- Join inflation risk: " ++ join_risk_st
      ++ "\n\nAnswer strictly using this information.\nIf unsure, say so clearly.\n", ?_⟩
    have hlit : ∀ s : String,
        "\n- Columns with negative values: None" ++ ("\n- Aggregation sanity status: " ++ s) =
          "\n- Columns with negative values: None\n- Aggregation sanity status: " ++ s := by
      intro s
      rw [← String.append_assoc]
      congr 1
    simp [build_gpt_context, joinOrNone, String.append_assoc, hlit]

/-- C2: the aggregation check coerces the three chosen columns to numeric
(non-parsable cells become missing and drop out of the sums), takes the
difference of the revenue sum and the quantity-times-price sum, and reports
PASS exactly when the absolute difference is at most 0.01; on
quantity [2,3], price [5,5] the check FAILs for revenue [10,16]
(difference 1) and PASSes for revenue [10,15] (difference 0). -/
theorem C2_aggregation (df : DataFrame)
    (quantity_col price_col revenue_col : String) :
    aggDiff df quantity_col price_col revenue_col =
      optSum ((df.col revenue_col).map toNumeric) -
        optSum (List.zipWith optMul ((df.col quantity_col).map toNumeric)
          ((df.col price_col).map toNumeric)) ∧
    (agg_status df quantity_col price_col revenue_col = "PASS" ↔
      |aggDiff df quantity_col price_col revenue_col| ≤ 1/100) ∧
    (agg_status df quantity_col price_col revenue_col = "FAIL" ↔
      ¬ |aggDiff df quantity_col price_col revenue_col| ≤ 1/100) ∧
    (∀ pre post : List (Option ℚ),
      optSum (pre ++ none :: post) = optSum (pre ++ post)) ∧
    aggDiff ⟨["q", "p", "r"],
      [[Cell.num 2, Cell.num 5, Cell.num 10],
       [Cell.num 3, Cell.num 5, Cell.num 16]]⟩ "q" "p" "r" = 1 ∧
    agg_status ⟨["q", "p", "r"],
      [[Cell.num 2, Cell.num 5, Cell.num 10],
       [Cell.num 3, Cell.num 5, Cell.num 16]]⟩ "q" "p" "r" = "FAIL" ∧
    aggDiff ⟨["q", "p", "r"],
      [[Cell.num 2, Cell.num 5, Cell.num 10],
       [Cell.num 3, Cell.num 5, Cell.num 15]]⟩ "q" "p" "r" = 0 ∧
    agg_status ⟨["q", "p", "r"],
      [[Cell.num 2, Cell.num 5, Cell.num 10],
       [Cell.num 3, Cell.num 5, Cell.num 15]]⟩ "q" "p" "r" = "PASS" := by
  have hne : ("FAIL" : String) ≠ "PASS" := by decide
  have hA : aggDiff ⟨["q", "p", "r"],
      [[Cell.num 2, Cell.num 5, Cell.num 10],
       [Cell.num 3, Cell.num 5, Cell.num 16]]⟩ "q" "p" "r" = 1 := by
    have h1 : toNumericCol ⟨["q", "p", "r"],
        [[Cell.num 2, Cell.num 5, Cell.num 10],
         [Cell.num 3, Cell.num 5, Cell.num 16]]⟩ "q" = [some 2, some 3] := rfl
    have h2 : toNumericCol ⟨["q", "p", "r"],
        [[Cell.num 2, Cell.num 5, Cell.num 10],
         [Cell.num 3, Cell.num 5, Cell.num 16]]⟩ "p" = [some 5, some 5] := rfl
    have h3 : toNumericCol ⟨["q", "p", "r"],
        [[Cell.num 2, Cell.num 5, Cell.num 10],
         [Cell.num 3, Cell.num 5, Cell.num 16]]⟩ "r" = [some 10, some 16] := rfl
    unfold aggDiff
    rw [h1, h2, h3]
    norm_num [optSum, optMul, List.zipWith_cons_cons, List.filterMap_cons]
  have hB : aggDiff ⟨["q", "p", "r"],
      [[Cell.num 2, Cell.num 5, Cell.num 10],
       [Cell.num 3, Cell.num 5, Cell.num 15]]⟩ "q" "p" "r" = 0 := by
    have h1 : toNumericCol ⟨["q", "p", "r"],
        [[Cell.num 2, Cell.num 5, Cell.num 10],
         [Cell.num 3, Cell.num 5, Cell.num 15]]⟩ "q" = [some 2, some 3] := rfl
    have h2 : toNumericCol ⟨["q", "p", "r"],
        [[Cell.num 2, Cell.num 5, Cell.num 10],
         [Cell.num 3, Cell.num 5, Cell.num 15]]⟩ "p" = [some 5, some 5] := rfl
    have h3 : toNumericCol ⟨["q", "p", "r"],
        [[Cell.num 2, Cell.num 5, Cell.num 10],
         [Cell.num 3, Cell.num 5, Cell.num 15]]⟩ "r" = [some 10, some 15] := rfl
    unfold aggDiff
    rw [h1, h2, h3]
    norm_num [optSum, optMul, List.zipWith_cons_cons, List.filterMap_cons]
  refine ⟨rfl, ?_, ?_, ?_, hA, ?_, hB, ?_⟩
  · by_cases h : |aggDiff df quantity_col price_col revenue_col| ≤ 1/100
    · unfold agg_status
      rw [if_pos h]
      exact ⟨fun _ => h, fun _ => rfl⟩
    · unfold agg_status
      rw [if_neg h]
      exact ⟨fun he => absurd he hne, fun hh => absurd hh h⟩
  · by_cases h : |aggDiff df quantity_col price_col revenue_col| ≤ 1/100
    · unfold agg_status
      rw [if_pos h]
      exact ⟨fun he => absurd he.symm hne, fun hh => absurd h hh⟩
    · unfold agg_status
      rw [if_neg h]
      exact ⟨fun _ => h, fun _ => rfl⟩
  · intro pre post
    simp [optSum, List.filterMap_append, List.filterMap_cons]
  · unfold agg_status
    rw [hA]
    norm_num
  · unfold agg_status
    rw [hB]
    norm_num

/-- C2 witness: a missing entry drops out of a concrete sum. -/
theorem C2_aggregation_witness :
    optSum ([some 1] ++ none :: [some 2]) = optSum ([some 1] ++ [some 2]) :=
  (C2_aggregation ⟨[], []⟩ "q" "p" "r").2.2.2.1 [some 1] [some 2]
